import Mathlib

/-!
Shallow embedding of `codes/config/deraining/models/denoising_model.py`
(class `DenoisingModel`), a training/inference orchestrator around a
diffusion denoising model.

Modelling conventions:
* A tensor is modelled by its batch of scalar items plus the bookkeeping
  flags the orchestrator manipulates: whether it sits on the compute
  device, whether it is detached from the autograd graph, and whether it
  has been cast to float.  Shape-only operations (`squeeze`) are modelled
  as the identity on this abstraction.
* Python attributes that are only created by assignment (`self.state`,
  `self.condition`, `self.state_0`, `self.output`) are `Option` fields;
  reading an absent one raises `AttributeError`, exactly as in Python.
* Mutating methods return an `Outcome`: the list of externally visible
  events in the order they happened, the object state after the call
  (mutations performed before an exception persist, as in Python), the
  conditioning mean stored into the SDE by `set_mu` (if reached), and the
  propagated exception, if any.
* The SDE object is an external collaborator (out of scope per the spec);
  it is modelled as a record of abstract functions.  Its two reverse
  samplers may raise, which the orchestrator does not guard against.
* The trainable parameters and the Adam optimizer state are external to
  this file's logic; they are modelled as abstract version counters that
  an `optimizer.step()` advances.
-/

namespace DenoisingModel

/-- Device/autograd bookkeeping model of a torch tensor: the batch of
items together with the flags the orchestrator code manipulates. -/
structure Tensor where
  batch : List Int
  onDevice : Bool
  detached : Bool
  isFloat : Bool
deriving DecidableEq, Repr

/-- `t.to(self.device)`: move to the compute device. -/
def Tensor.toDevice (t : Tensor) : Tensor := { t with onDevice := true }

/-- `t.detach()`: drop autograd tracking. -/
def Tensor.detach (t : Tensor) : Tensor := { t with detached := true }

/-- `t[0]`: first item of the batch; `IndexError` (none) on an empty batch. -/
def Tensor.index0 (t : Tensor) : Option Tensor :=
  match t.batch with
  | [] => none
  | x :: _ => some { t with batch := [x] }

/-- `t.float()`: cast to float. -/
def Tensor.toFloat (t : Tensor) : Tensor := { t with isFloat := true }

/-- `t.cpu()`: move to host memory. -/
def Tensor.cpu (t : Tensor) : Tensor := { t with onDevice := false }

/-- `t.squeeze()`: shape-only operation, identity on this abstraction. -/
def Tensor.squeeze (t : Tensor) : Tensor := t

/-- Exceptions the orchestrator can propagate. -/
inductive PyError where
  | attributeError (name : String)
  | notImplementedError (msg : String)
  | externalError (msg : String)
deriving DecidableEq, Repr

/-- Train/eval mode flag of the wrapped network. -/
inductive Mode where
  | train
  | eval
deriving DecidableEq, Repr

/-- Externally visible actions of `optimize_parameters` / `test`, in the
order the Python code performs them. -/
inductive Event where
  | setMu
  | zeroGrad
  | noiseFn
  | getScore
  | reverseSdeStepMean
  | reverseOptimumStep
  | backward
  | optimizerStep
  | logWrite
  | modelEval
  | modelTrain
  | enterNoGrad
  | exitNoGrad
  | reverseSde
  | reverseOde
deriving DecidableEq, Repr

/-- Modelled from the spec: the external SDE/diffusion library
(`noise_fn`, `get_score_from_noise`, `reverse_sde_step_mean`,
`reverse_optimum_step`, `reverse_sde`, `reverse_ode`) is an out-of-scope
collaborator supplied by the caller; it is modelled as a record of
abstract functions.  The two reverse samplers may raise. -/
structure SDE where
  noise_fn : Tensor → Tensor → Tensor
  get_score_from_noise : Tensor → Tensor → Tensor
  reverse_sde_step_mean : Tensor → Tensor → Tensor → Tensor
  reverse_optimum_step : Tensor → Tensor → Tensor → Tensor
  reverse_sde : Tensor → Bool → Except PyError Tensor
  reverse_ode : Tensor → Bool → Except PyError Tensor

/-- Modelled from the spec: `MatchingLoss` (external module
`models.modules.loss`, not under src/) is "a weighted matching loss";
it is modelled as an abstract scalar-valued function of the two compared
tensors, supplied as part of the training environment. -/
structure TrainEnv where
  loss_fn : Tensor → Tensor → Int

/-- Mutable state of a `DenoisingModel` object.  `params` and
`optimState` are abstract version counters for the trainable parameters
and the Adam moment statistics (both external); `weight` is
`opt['train']['weight']`. -/
structure DMState where
  state : Option Tensor
  condition : Option Tensor
  state_0 : Option Tensor
  output : Option Tensor
  mode : Mode
  log_dict : List (String × Int)
  params : Int
  optimState : Int
  weight : Int
deriving DecidableEq, Repr

/-- Result of a mutating method call: event trace in order, object state
after the call (partial mutations persist across exceptions), the mean
stored into the SDE by `set_mu` if that point was reached, and the
propagated exception, if any. -/
structure Outcome where
  trace : List Event
  final : DMState
  sdeMu : Option Tensor
  error : Option PyError
deriving DecidableEq, Repr

/-- `OrderedDict` assignment `d[k] = v`: update in place if the key
exists, else append. -/
def setLog : List (String × Int) → String → Int → List (String × Int)
  | [], k, v => [(k, v)]
  | (k0, v0) :: rest, k, v =>
    if k0 = k then (k, v) :: rest else (k0, v0) :: setLog rest k v

/-- `feed_data(self, state, LQ, GT=None)`: stores `state` and `LQ`
moved to the device; stores `GT` moved to the device only when it is
not `None`. -/
def feed_data (s : DMState) (state LQ : Tensor) (GT : Option Tensor) : DMState :=
  let s1 := { s with state := some state.toDevice, condition := some LQ.toDevice }
  match GT with
  | some gt => { s1 with state_0 := some gt.toDevice }
  | none => s1

/-- `optimize_parameters(self, step, timesteps, sde=None)`.  The `step`
argument is accepted and unused, as in the source.  Mirrors the source
line by line: `sde.set_mu(self.condition)`; `optimizer.zero_grad()`;
move `timesteps` to the device; `noise = sde.noise_fn(state, ts.squeeze())`;
`score = sde.get_score_from_noise(noise, ts)`;
`xt_1_expection = sde.reverse_sde_step_mean(state, score, ts)`;
`xt_1_optimum = sde.reverse_optimum_step(state, state_0, ts)`;
`loss = weight * loss_fn(...)`; `loss.backward()`; `optimizer.step()`;
`log_dict["loss"] = loss.item()`.  Returns nothing (only the mutated
state).  Absent attributes raise `AttributeError` at the point of use. -/
def optimize_parameters (env : TrainEnv) (s : DMState) (step : Int)
    (timesteps : Tensor) (sde : Option SDE) : Outcome :=
  match sde with
  | none => ⟨[], s, none, some (PyError.attributeError "set_mu")⟩
  | some sd =>
    match s.condition with
    | none => ⟨[], s, none, some (PyError.attributeError "condition")⟩
    | some cond =>
      let _ := step
      let ts := timesteps.toDevice
      match s.state with
      | none =>
        ⟨[Event.setMu, Event.zeroGrad], s, some cond,
          some (PyError.attributeError "state")⟩
      | some st =>
        let noise := sd.noise_fn st ts.squeeze
        let score := sd.get_score_from_noise noise ts
        let xt_1_expection := sd.reverse_sde_step_mean st score ts
        match s.state_0 with
        | none =>
          ⟨[Event.setMu, Event.zeroGrad, Event.noiseFn, Event.getScore,
            Event.reverseSdeStepMean], s, some cond,
            some (PyError.attributeError "state_0")⟩
        | some st0 =>
          let xt_1_optimum := sd.reverse_optimum_step st st0 ts
          let loss := s.weight * env.loss_fn xt_1_expection xt_1_optimum
          let s1 := { s with
            params := s.params + 1,
            optimState := s.optimState + 1,
            log_dict := setLog s.log_dict "loss" loss }
          ⟨[Event.setMu, Event.zeroGrad, Event.noiseFn, Event.getScore,
            Event.reverseSdeStepMean, Event.reverseOptimumStep, Event.backward,
            Event.optimizerStep, Event.logWrite], s1, some cond, none⟩

/-- `test(self, sde=None, perform_ode=False, save_states=False)`.
Mirrors the source: `sde.set_mu(self.condition)`; `model.eval()`;
`with torch.no_grad():` run `reverse_sde` or, when `perform_ode`,
`reverse_ode`, storing the result in `self.output`; `model.train()`.
The `with` block restores gradient tracking even when the sampler
raises, but `model.train()` after the block is then never reached, so
the mode stays `eval` on that path. -/
def test (s : DMState) (sde : Option SDE) (perform_ode save_states : Bool) :
    Outcome :=
  match sde with
  | none => ⟨[], s, none, some (PyError.attributeError "set_mu")⟩
  | some sd =>
    match s.condition with
    | none => ⟨[], s, none, some (PyError.attributeError "condition")⟩
    | some cond =>
      let s1 := { s with mode := Mode.eval }
      match s.state with
      | none =>
        ⟨[Event.setMu, Event.modelEval, Event.enterNoGrad, Event.exitNoGrad],
          s1, some cond, some (PyError.attributeError "state")⟩
      | some st =>
        if perform_ode = false then
          match sd.reverse_sde st save_states with
          | Except.error e =>
            ⟨[Event.setMu, Event.modelEval, Event.enterNoGrad, Event.reverseSde,
              Event.exitNoGrad], s1, some cond, some e⟩
          | Except.ok out =>
            ⟨[Event.setMu, Event.modelEval, Event.enterNoGrad, Event.reverseSde,
              Event.exitNoGrad, Event.modelTrain],
              { s1 with output := some out, mode := Mode.train }, some cond, none⟩
        else
          match sd.reverse_ode st save_states with
          | Except.error e =>
            ⟨[Event.setMu, Event.modelEval, Event.enterNoGrad, Event.reverseOde,
              Event.exitNoGrad], s1, some cond, some e⟩
          | Except.ok out =>
            ⟨[Event.setMu, Event.modelEval, Event.enterNoGrad, Event.reverseOde,
              Event.exitNoGrad, Event.modelTrain],
              { s1 with output := some out, mode := Mode.train }, some cond, none⟩

/-- `get_current_log(self)`: pure accessor of the log dict. -/
def get_current_log (s : DMState) : List (String × Int) := s.log_dict

/-- The presentation transform applied to each visual:
`t.detach()[0].float().cpu()`; `none` models `IndexError` on an empty
batch. -/
def presentItem (t : Tensor) : Option Tensor :=
  (t.detach.index0).map fun u => u.toFloat.cpu

/-- `get_current_visuals(self, need_GT=True)`: builds an `OrderedDict`
with `"Input"` from `condition`, `"Output"` from `output`, and, when
`need_GT`, `"GT"` from `state_0`, each sent through
`detach()[0].float().cpu()`. -/
def get_current_visuals (s : DMState) (need_GT : Bool) :
    Except PyError (List (String × Tensor)) :=
  match s.condition with
  | none => Except.error (PyError.attributeError "condition")
  | some c =>
    match presentItem c with
    | none => Except.error (PyError.externalError "IndexError")
    | some inp =>
      match s.output with
      | none => Except.error (PyError.attributeError "output")
      | some o =>
        match presentItem o with
        | none => Except.error (PyError.externalError "IndexError")
        | some outp =>
          if need_GT then
            match s.state_0 with
            | none => Except.error (PyError.attributeError "state_0")
            | some g =>
              match presentItem g with
              | none => Except.error (PyError.externalError "IndexError")
              | some gt =>
                Except.ok [("Input", inp), ("Output", outp), ("GT", gt)]
          else
            Except.ok [("Input", inp), ("Output", outp)]

/-- `opt['path']`: the checkpoint path options consumed by `load`. -/
structure PathOpt where
  pretrain_model_G : Option String
  strict_load : Bool
deriving DecidableEq, Repr

/-- External actions of `load`: the informational log line and the
delegated `load_network(path, model, strict)` call. -/
inductive LoadEvent where
  | logInfo (path : String)
  | loadNetwork (path : String) (strict : Bool)
deriving DecidableEq, Repr

/-- `load(self)`: if `opt['path']['pretrain_model_G']` is `None`, does
nothing; otherwise logs and delegates to the external `load_network`
with the configured strictness flag.  Raises nothing itself. -/
def load (path : PathOpt) : List LoadEvent :=
  match path.pretrain_model_G with
  | none => []
  | some p => [LoadEvent.logInfo p, LoadEvent.loadNetwork p path.strict_load]

/-- `opt['train']`: the training options `__init__` consumes.  Scheduler
hyperparameters (milestones, restarts, periods, ...) are opaque to the
control flow modelled here and are omitted. -/
structure TrainOpt where
  is_weighted : Bool
  loss_type : String
  weight : Int
  lr_scheme : String
deriving DecidableEq, Repr

/-- Modelled from the spec: `BaseModel.__init__` (file
`models/base_model.py`, not under src/) supplies `self.is_train` from
the configuration; the spec's configuration section lists
training-only options, so the flag is carried as a configuration
field consumed by the `if self.is_train:` guard visible in src. -/
structure Opt where
  dist : Bool
  is_train : Bool
  train : TrainOpt
  path : PathOpt
deriving DecidableEq, Repr

/-- Construction-time actions of `__init__`, in source order. -/
inductive InitEvent where
  | defineG
  | wrapDistributedDP
  | wrapDP
  | loadStep (e : LoadEvent)
  | setTrainMode
  | mkLossFn
  | mkOptimizer
  | mkMultiStepLR
  | mkCosineAnnealingLR
deriving DecidableEq, Repr

/-- Result of `__init__`: the constructed object on success, or the
construction-time exception; plus the trace of actions performed. -/
structure InitOutcome where
  trace : List InitEvent
  state : Option DMState
  error : Option PyError
deriving DecidableEq, Repr

/-- The freshly constructed object state: no step attributes exist yet,
the log dict is a fresh empty `OrderedDict`, the network starts (and,
under `is_train`, is explicitly put) in train mode. -/
def initialState (opt : Opt) : DMState :=
  { state := none, condition := none, state_0 := none, output := none,
    mode := Mode.train, log_dict := [], params := 0, optimState := 0,
    weight := if opt.is_train then opt.train.weight else 0 }

/-- `__init__(self, opt)`: defines the network, wraps it
(DistributedDataParallel when `opt['dist']`, else the plain parallel
wrapper), calls `load()`; then, only when in training mode, sets train
mode, builds the loss and the Adam optimizer, and builds the scheduler
selected by `opt['train']['lr_scheme']` — any name other than
`"MultiStepLR"` and `"CosineAnnealingLR_Restart"` raises
`NotImplementedError` and construction fails. -/
def init (opt : Opt) : InitOutcome :=
  let wrap := if opt.dist then InitEvent.wrapDistributedDP else InitEvent.wrapDP
  let tr1 := [InitEvent.defineG, wrap] ++ (load opt.path).map InitEvent.loadStep
  if opt.is_train then
    let tr2 := tr1 ++ [InitEvent.setTrainMode, InitEvent.mkLossFn,
      InitEvent.mkOptimizer]
    if opt.train.lr_scheme = "MultiStepLR" then
      ⟨tr2 ++ [InitEvent.mkMultiStepLR], some (initialState opt), none⟩
    else if opt.train.lr_scheme = "CosineAnnealingLR_Restart" then
      ⟨tr2 ++ [InitEvent.mkCosineAnnealingLR], some (initialState opt), none⟩
    else
      ⟨tr2, none,
        some (PyError.notImplementedError
          "MultiStepLR learning rate scheme is enough.")⟩
  else
    ⟨tr1, some (initialState opt), none⟩

/-! Concrete instances used by witnesses and counterexamples. -/

/-- A sample tensor on the host. -/
def tA : Tensor := ⟨[3, 4], false, false, false⟩

/-- Another sample tensor on the host. -/
def tB : Tensor := ⟨[7, 8], false, false, false⟩

/-- A previously stored ground-truth tensor. -/
def tOld : Tensor := ⟨[9], true, false, false⟩

/-- Sample diffusion timesteps. -/
def tTs : Tensor := ⟨[5], false, false, false⟩

/-- Sample stored condition (after `feed_data`). -/
def cEx : Tensor := tB.toDevice

/-- Sample stored noisy state (after `feed_data`). -/
def stEx : Tensor := tA.toDevice

/-- Sample stored ground truth (after `feed_data`). -/
def gEx : Tensor := tOld.toDevice

/-- A concrete matching-loss environment. -/
def envEx : TrainEnv := ⟨fun a b => a.batch.headD 0 + b.batch.headD 0⟩

/-- A concrete well-behaved SDE collaborator. -/
def sdeEx : SDE :=
  ⟨fun a _ => a, fun a _ => a, fun a _ _ => a,
    fun a b _ => ⟨a.batch ++ b.batch, a.onDevice, a.detached, a.isFloat⟩,
    fun a _ => Except.ok a, fun a _ => Except.ok a.toFloat⟩

/-- An SDE collaborator whose samplers raise. -/
def sdeBoom : SDE :=
  ⟨fun a _ => a, fun a _ => a, fun a _ _ => a, fun a _ _ => a,
    fun _ _ => Except.error (PyError.externalError "boom"),
    fun _ _ => Except.error (PyError.externalError "boom")⟩

/-- Orchestrator state holding a previously fed ground truth `tOld`. -/
def exC1 : DMState := ⟨some stEx, some cEx, some tOld, none, Mode.train, [], 0, 0, 2⟩

/-- Orchestrator state after a full `feed_data` (ground truth present). -/
def exTrain : DMState := ⟨some stEx, some cEx, some gEx, none, Mode.train, [], 0, 0, 2⟩

/-- Orchestrator state where ground truth was never fed. -/
def exNoGT : DMState := ⟨some stEx, some cEx, none, none, Mode.train, [], 0, 0, 2⟩

/-- Orchestrator state ready for `test`, with a nonempty log. -/
def exTest : DMState :=
  ⟨some stEx, some cEx, some gEx, none, Mode.train, [("loss", 3)], 1, 1, 2⟩

/-- Orchestrator state after `feed_data` and a completed `test` run. -/
def exVis : DMState := ⟨some stEx, some cEx, some gEx, some tA, Mode.train, [], 0, 0, 2⟩

/-- Orchestrator state after a ground-truth-free `feed_data` and a
completed `test` run (inference: `state_0` absent). -/
def exVisNoGT : DMState := ⟨some stEx, some cEx, none, some tA, Mode.train, [], 0, 0, 2⟩

/-- Configuration in inference mode with an unsupported scheduler name. -/
def badOptEval : Opt :=
  ⟨false, false, ⟨false, "l1", 1, "StepLR"⟩, ⟨none, true⟩⟩

/-- Configuration in training mode with an unsupported scheduler name. -/
def badOptTrain : Opt :=
  ⟨false, true, ⟨false, "l1", 1, "StepLR"⟩, ⟨none, true⟩⟩

/-- C1 (counterexample): at a concrete state holding a previously stored
ground truth, `feed_data` with no ground truth leaves `state_0` exactly
as it was — it is not replaced, refuting the claim's "a feed_data call
with no ground truth also replaces the previously stored state_0". -/
theorem C1_counterexample_feed_data_keeps_state_0 :
    (feed_data exC1 tA tB none).state_0 = exC1.state_0 ∧
    exC1.state_0 = some tOld := by
  constructor <;> rfl

/-- C1 (amended): `feed_data` stores `state` and `condition` moved to
the compute device, overwriting the prior step's values, and overwrites
`state_0` (moved to the device) only when a ground truth is supplied; a
call with no ground truth leaves the previously stored `state_0`
unchanged.  All other orchestrator fields are untouched. -/
theorem C1_feed_data_effect (s : DMState) (st LQ : Tensor) (GT : Option Tensor) :
    (feed_data s st LQ GT).state = some st.toDevice ∧
    (feed_data s st LQ GT).condition = some LQ.toDevice ∧
    (feed_data s st LQ GT).state_0 =
      (match GT with
       | some g => some g.toDevice
       | none => s.state_0) ∧
    (feed_data s st LQ GT).output = s.output ∧
    (feed_data s st LQ GT).mode = s.mode ∧
    (feed_data s st LQ GT).log_dict = s.log_dict ∧
    (feed_data s st LQ GT).params = s.params ∧
    (feed_data s st LQ GT).optimState = s.optimState := by
  cases GT <;> simp [feed_data]

/-- C2: with ground truth fed, `optimize_parameters` performs, in order,
set_mu on the SDE (storing the condition as its mean), zero_grad, the
forward noise and score computation, the expected reverse step, the
analytically optimal reverse step from ground truth, backward, one
optimizer update, and the log write; `log_dict["loss"]` receives the
weighted matching loss of the two reverse-step tensors; besides the log
and the one parameter/optimizer update it mutates nothing, and it
returns no value. -/
theorem C2_optimize_parameters_contract (env : TrainEnv) (s : DMState)
    (step : Int) (ts : Tensor) (sd : SDE) (c st s0 : Tensor)
    (hc : s.condition = some c) (hst : s.state = some st)
    (h0 : s.state_0 = some s0) :
    (optimize_parameters env s step ts (some sd)).error = none ∧
    (optimize_parameters env s step ts (some sd)).sdeMu = some c ∧
    (optimize_parameters env s step ts (some sd)).trace =
      [Event.setMu, Event.zeroGrad, Event.noiseFn, Event.getScore,
       Event.reverseSdeStepMean, Event.reverseOptimumStep, Event.backward,
       Event.optimizerStep, Event.logWrite] ∧
    (optimize_parameters env s step ts (some sd)).final.log_dict =
      setLog s.log_dict "loss"
        (s.weight * env.loss_fn
          (sd.reverse_sde_step_mean st
            (sd.get_score_from_noise (sd.noise_fn st ts.toDevice.squeeze)
              ts.toDevice)
            ts.toDevice)
          (sd.reverse_optimum_step st s0 ts.toDevice)) ∧
    (optimize_parameters env s step ts (some sd)).final.params = s.params + 1 ∧
    (optimize_parameters env s step ts (some sd)).final.optimState =
      s.optimState + 1 ∧
    (optimize_parameters env s step ts (some sd)).final.state = s.state ∧
    (optimize_parameters env s step ts (some sd)).final.condition = s.condition ∧
    (optimize_parameters env s step ts (some sd)).final.state_0 = s.state_0 ∧
    (optimize_parameters env s step ts (some sd)).final.output = s.output ∧
    (optimize_parameters env s step ts (some sd)).final.mode = s.mode := by
  simp [optimize_parameters, hc, hst, h0]

/-- C2 witness at a concrete state, environment and SDE. -/
theorem C2_optimize_parameters_contract_witness :
    (optimize_parameters envEx exTrain 1 tTs (some sdeEx)).error = none :=
  (C2_optimize_parameters_contract envEx exTrain 1 tTs sdeEx cEx stEx gEx
    rfl rfl rfl).1

/-- C3: when ground truth was never fed (`state_0` absent),
`optimize_parameters` runs unguarded up to the point of use — set_mu,
zero_grad, noise, score and the expected reverse step all happen — and
then fails with `AttributeError` exactly at the dereference of the
absent `state_0`, propagating to the caller; no backward pass, optimizer
update or log write occurs and the state is unchanged. -/
theorem C3_optimize_parameters_missing_GT (env : TrainEnv) (s : DMState)
    (step : Int) (ts : Tensor) (sd : SDE) (c st : Tensor)
    (hc : s.condition = some c) (hst : s.state = some st)
    (h0 : s.state_0 = none) :
    (optimize_parameters env s step ts (some sd)).error =
      some (PyError.attributeError "state_0") ∧
    (optimize_parameters env s step ts (some sd)).trace =
      [Event.setMu, Event.zeroGrad, Event.noiseFn, Event.getScore,
       Event.reverseSdeStepMean] ∧
    (optimize_parameters env s step ts (some sd)).final = s := by
  simp [optimize_parameters, hc, hst, h0]

/-- C3 witness at a concrete state with no ground truth. -/
theorem C3_optimize_parameters_missing_GT_witness :
    (optimize_parameters envEx exNoGT 1 tTs (some sdeEx)).error =
      some (PyError.attributeError "state_0") :=
  (C3_optimize_parameters_missing_GT envEx exNoGT 1 tTs sdeEx cEx stEx
    rfl rfl rfl).1

/-- C4 (counterexample): a construction with an unsupported
learning-rate-scheme name but `is_train = false` succeeds — no
"not implemented" error is raised — refuting the claim for every
construction. -/
theorem C4_counterexample_eval_mode_construction :
    badOptEval.train.lr_scheme ≠ "MultiStepLR" ∧
    badOptEval.train.lr_scheme ≠ "CosineAnnealingLR_Restart" ∧
    (init badOptEval).error = none ∧
    (init badOptEval).state = some (initialState badOptEval) := by
  refine ⟨by decide, by decide, rfl, rfl⟩

/-- C4 (amended): for every construction in training mode
(`is_train = true`) with a learning-rate-scheme name other than
"MultiStepLR" and "CosineAnnealingLR_Restart", construction raises
`NotImplementedError` at construction time and no object is produced,
so no optimizer step is ever possible. -/
theorem C4_init_unsupported_scheme (opt : Opt) (htrain : opt.is_train = true)
    (h1 : opt.train.lr_scheme ≠ "MultiStepLR")
    (h2 : opt.train.lr_scheme ≠ "CosineAnnealingLR_Restart") :
    (init opt).error =
      some (PyError.notImplementedError
        "MultiStepLR learning rate scheme is enough.") ∧
    (init opt).state = none := by
  simp [init, htrain, h1, h2]

/-- C4 witness at a concrete training-mode configuration. -/
theorem C4_init_unsupported_scheme_witness :
    (init badOptTrain).error =
      some (PyError.notImplementedError
        "MultiStepLR learning rate scheme is enough.") :=
  (C4_init_unsupported_scheme badOptTrain rfl (by decide) (by decide)).1

/-- C5: `test` with `perform_ode = false` invokes the stochastic
`reverse_sde` sampler and never `reverse_ode`, and with
`perform_ode = true` invokes the deterministic `reverse_ode` sampler and
never `reverse_sde`; in both cases the sampler's result is stored as the
orchestrator's `output`. -/
theorem C5_test_dispatch (s : DMState) (sd : SDE) (sv : Bool)
    (c st outS outO : Tensor)
    (hc : s.condition = some c) (hst : s.state = some st)
    (hS : sd.reverse_sde st sv = Except.ok outS)
    (hO : sd.reverse_ode st sv = Except.ok outO) :
    (Event.reverseSde ∈ (test s (some sd) false sv).trace ∧
     Event.reverseOde ∉ (test s (some sd) false sv).trace ∧
     (test s (some sd) false sv).final.output = some outS) ∧
    (Event.reverseOde ∈ (test s (some sd) true sv).trace ∧
     Event.reverseSde ∉ (test s (some sd) true sv).trace ∧
     (test s (some sd) true sv).final.output = some outO) := by
  simp [test, hc, hst, hS, hO]

/-- C5 witness at a concrete state and SDE. -/
theorem C5_test_dispatch_witness :
    Event.reverseSde ∈ (test exTest (some sdeEx) false false).trace :=
  (C5_test_dispatch exTest sdeEx false cEx stEx stEx stEx.toFloat
    rfl rfl rfl rfl).1.1

/-- C6 (counterexample): at a concrete state and an SDE whose stochastic
sampler raises, `test` propagates the exception and the mode flag is
`eval`, not `train`, after termination — the claim's "even when the
underlying sampler raises" is refuted. -/
theorem C6_counterexample_mode_after_raise :
    (test exTest (some sdeBoom) false false).error =
      some (PyError.externalError "boom") ∧
    (test exTest (some sdeBoom) false false).final.mode = Mode.eval ∧
    Mode.eval ≠ Mode.train := by
  refine ⟨rfl, rfl, by decide⟩

/-- C6 (amended): whenever `test` terminates normally (no exception),
the model's mode flag equals `train` on return, regardless of which
reverse method was used; if the sampler raises, the mode remains `eval`
because the `model.train()` call after the sampling block is never
reached. -/
theorem C6_test_restores_train_mode (s : DMState) (sde : Option SDE)
    (po sv : Bool) (h : (test s sde po sv).error = none) :
    (test s sde po sv).final.mode = Mode.train := by
  cases sde with
  | none => simp [test] at h
  | some sd =>
    cases hc : s.condition with
    | none => simp [test, hc] at h
    | some c =>
      cases hst : s.state with
      | none => simp [test, hc, hst] at h
      | some st =>
        cases po with
        | false =>
          cases hS : sd.reverse_sde st sv with
          | error e => simp [test, hc, hst, hS] at h
          | ok out => simp [test, hc, hst, hS]
        | true =>
          cases hO : sd.reverse_ode st sv with
          | error e => simp [test, hc, hst, hO] at h
          | ok out => simp [test, hc, hst, hO]

/-- C6 witness: a normally terminating `test` ends in train mode. -/
theorem C6_test_restores_train_mode_witness :
    (test exTest (some sdeEx) false false).final.mode = Mode.train :=
  C6_test_restores_train_mode exTest (some sdeEx) false false rfl

/-- C7: once `condition` and `output` are present with nonempty batches
(after `feed_data` and a completed `test` run), `get_current_visuals`
with `need_GT = false` returns a mapping with exactly the keys "Input"
and "Output" in that order — ground truth is not needed for this; when
ground truth is additionally present, `need_GT = true` returns "Input",
"Output" and "GT".  Each value is the first item of the corresponding
batch, detached, cast to float and moved to host memory. -/
theorem C7_get_current_visuals_keys (s : DMState)
    (ic io : Int) (rc ro : List Int) (b1 b2 b3 b4 b5 b6 : Bool)
    (hc : s.condition = some ⟨ic :: rc, b1, b2, b3⟩)
    (ho : s.output = some ⟨io :: ro, b4, b5, b6⟩) :
    get_current_visuals s false =
      Except.ok [("Input", ⟨[ic], false, true, true⟩),
                 ("Output", ⟨[io], false, true, true⟩)] ∧
    (∀ (ig : Int) (rg : List Int) (b7 b8 b9 : Bool),
      s.state_0 = some ⟨ig :: rg, b7, b8, b9⟩ →
      get_current_visuals s true =
        Except.ok [("Input", ⟨[ic], false, true, true⟩),
                   ("Output", ⟨[io], false, true, true⟩),
                   ("GT", ⟨[ig], false, true, true⟩)]) := by
  constructor
  · simp [get_current_visuals, presentItem, Tensor.detach, Tensor.index0,
      Tensor.toFloat, Tensor.cpu, hc, ho]
  · intro ig rg b7 b8 b9 hg
    simp [get_current_visuals, presentItem, Tensor.detach, Tensor.index0,
      Tensor.toFloat, Tensor.cpu, hc, ho, hg]

/-- C7 witness: the `need_GT = false` half at a concrete ground-truth-free
inference state, and the `need_GT = true` half at a concrete state with
ground truth fed. -/
theorem C7_get_current_visuals_keys_witness :
    get_current_visuals exVisNoGT false =
      Except.ok [("Input", ⟨[7], false, true, true⟩),
                 ("Output", ⟨[3], false, true, true⟩)] ∧
    get_current_visuals exVis true =
      Except.ok [("Input", ⟨[7], false, true, true⟩),
                 ("Output", ⟨[3], false, true, true⟩),
                 ("GT", ⟨[9], false, true, true⟩)] :=
  ⟨(C7_get_current_visuals_keys exVisNoGT 7 3 [8] [4]
      true false false false false false rfl rfl).1,
   (C7_get_current_visuals_keys exVis 7 3 [8] [4]
      true false false false false false rfl rfl).2 9 [] true false false rfl⟩

/-- C8: when the configured pretrained-checkpoint path is absent,
`load` performs no checkpoint load and raises nothing (it is silently
skipped); when the path is present, exactly one external `load_network`
call is made with that path and the configured strictness flag. -/
theorem C8_load_behavior (p : PathOpt) :
    (p.pretrain_model_G = none → load p = []) ∧
    (∀ path, p.pretrain_model_G = some path →
      load p = [LoadEvent.logInfo path,
        LoadEvent.loadNetwork path p.strict_load]) := by
  constructor
  · intro h
    simp [load, h]
  · intro path h
    simp [load, h]

/-- C8 witness: one configuration with no path and one with a path. -/
theorem C8_load_behavior_witness :
    load ⟨none, true⟩ = [] ∧
    load ⟨some "ckpt", false⟩ =
      [LoadEvent.logInfo "ckpt", LoadEvent.loadNetwork "ckpt" false] :=
  ⟨(C8_load_behavior ⟨none, true⟩).1 rfl,
   (C8_load_behavior ⟨some "ckpt", false⟩).2 "ckpt" rfl⟩

/-- C9: although `sde` is syntactically optional in both
`optimize_parameters` and `test`, each dereferences it as its very first
action (`sde.set_mu`), so omitting it fails with `AttributeError` before
any event occurs and before any mutation — the argument is required by
contract at the public interface. -/
theorem C9_sde_required (env : TrainEnv) (s : DMState) (step : Int)
    (ts : Tensor) (po sv : Bool) :
    (optimize_parameters env s step ts none).error =
      some (PyError.attributeError "set_mu") ∧
    (optimize_parameters env s step ts none).trace = [] ∧
    (optimize_parameters env s step ts none).final = s ∧
    (test s none po sv).error = some (PyError.attributeError "set_mu") ∧
    (test s none po sv).trace = [] ∧
    (test s none po sv).final = s := by
  simp [optimize_parameters, test]

/-- C10: `test` leaves the trainable parameters, the optimizer state,
the log dict and the stored step tensors unchanged; its trace contains
no optimizer, backward, zero_grad or log-write action; and any sampler
invocation happens inside the no-gradient scope, which is entered and
exited around it.  The only fields it mutates are `output` and,
transiently, the mode flag. -/
theorem C10_test_frame (s : DMState) (sde : Option SDE) (po sv : Bool) :
    (test s sde po sv).final.params = s.params ∧
    (test s sde po sv).final.optimState = s.optimState ∧
    (test s sde po sv).final.log_dict = s.log_dict ∧
    (test s sde po sv).final.state = s.state ∧
    (test s sde po sv).final.condition = s.condition ∧
    (test s sde po sv).final.state_0 = s.state_0 ∧
    (test s sde po sv).final.weight = s.weight ∧
    Event.optimizerStep ∉ (test s sde po sv).trace ∧
    Event.backward ∉ (test s sde po sv).trace ∧
    Event.zeroGrad ∉ (test s sde po sv).trace ∧
    Event.logWrite ∉ (test s sde po sv).trace ∧
    ((Event.reverseSde ∈ (test s sde po sv).trace ∨
      Event.reverseOde ∈ (test s sde po sv).trace) →
      Event.enterNoGrad ∈ (test s sde po sv).trace ∧
      Event.exitNoGrad ∈ (test s sde po sv).trace) := by
  cases sde with
  | none => simp [test]
  | some sd =>
    cases hc : s.condition with
    | none => simp [test, hc]
    | some c =>
      cases hst : s.state with
      | none => simp [test, hc, hst]
      | some st =>
        cases po with
        | false =>
          cases hS : sd.reverse_sde st sv with
          | error e => simp [test, hc, hst, hS]
          | ok out => simp [test, hc, hst, hS]
        | true =>
          cases hO : sd.reverse_ode st sv with
          | error e => simp [test, hc, hst, hO]
          | ok out => simp [test, hc, hst, hO]

/-- C10 witness at a concrete state and SDE. -/
theorem C10_test_frame_witness :
    (test exTest (some sdeEx) false false).final.params = exTest.params :=
  (C10_test_frame exTest (some sdeEx) false false).1

end DenoisingModel
